import Mathlib

/-
Shallow embedding of src/static/gmap.js (sbs1-web browser client).

The JavaScript file keeps three globals: Planes (an object mapping an icao
string to a plane record that also carries its Google-Maps marker), Selected
(the icao of the currently selected plane, or null), and NumPlanes. The two
operations of interest are fetchData (the reconciliation callback applied to
one JSON snapshot) and selectPlane (the marker click handler), together with
the pure appearance function getIconForPlane and the two panel renderers.

Modelling conventions, faithful to the source:
- the Planes object becomes an association list from String to Plane;
  key lookup is first-match string equality, as for JS object keys;
- Selected : Option String (null becomes none);
- numbers that the code only stores and prints (latitude, longitude,
  altitude, speed, track) become Int; the only arithmetic in the file,
  parseInt(255/maxalt*invalt), is IEEE-754 double arithmetic and is
  modelled exactly with integers: the double 255/40000 is the correctly
  rounded quotient dblSig * 2^(-60), the product with the (exactly
  representable) integer invalt is rounded to nearest, ties to even, on
  the 53-bit grid of its binade, and parseInt truncates the result;
- the Google-Maps marker becomes a record of position, icon, title and an
  onMap flag; marker.setMap(null) becomes onMap := false, and markers so
  removed are collected in the removedMarkers field of the state;
- jQuery $.trim is modelled by jsTrim, which drops whitespace on both ends;
- fields never initialised by the source (plane.lat and plane.lon are only
  assigned in the update branch of fetchData, never at creation) become
  Option Int, with the JS string conversion of undefined handled by
  showOptInt.
-/

set_option maxRecDepth 8192

namespace SBS1

/-- Shape of the icon object returned by getIconForPlane (gmap.js lines
16-23). The fixed fillOpacity 0.9 is recorded as tenths; the symbol path
constant is kept as a string. -/
structure Icon where
  strokeWeight : Nat
  path : String
  scale : Nat
  fillColor : String
  fillOpacityTenths : Nat
  rotation : Int
  deriving Repr, DecidableEq

/-- The fields of a plane object that getIconForPlane actually reads
(plane.icao, plane.altitude, plane.track). Both snapshot records and
registry records are passed to it in the source, so we extract this view. -/
structure PlaneView where
  icao : String
  altitude : Int
  track : Int
  deriving Repr, DecidableEq

/-- Round-to-nearest integer quotient of n / d with ties broken to the even
candidate, the rounding mode of every IEEE-754 double operation. -/
def rndDivNE (n d : Nat) : Nat :=
  let q := n / d
  let r := n % d
  if 2 * r < d then q else if d < 2 * r then q + 1 else if q % 2 = 0 then q else q + 1

/-- The IEEE-754 double closest to 255/40000, scaled by 2^60. The quotient
lies in the binade from 2^(-8) to 2^(-7), whose doubles are exactly the
multiples of 2^(-60) with a 53-bit significand, so the correctly rounded
division 255/40000 is the nearest-even integer rounding of
255 * 2^60 / 40000 at that scale. Its value is 7349874591868649. -/
def dblSig : Nat := rndDivNE (255 * 2 ^ 60) 40000

/-- Number of binary digits of n, computed with an explicit fuel argument
(written with Nat.rec so that it evaluates by peeling the fuel one layer at
a time); fuel f is enough whenever n < 2^f. -/
def bitLenAux (fuel : Nat) : Nat → Nat :=
  Nat.rec (motive := fun _ => Nat → Nat) (fun _ => 0)
    (fun _ ih n => if n = 0 then 0 else ih (n / 2) + 1) fuel

/-- Number of binary digits of n: zero for zero, otherwise the exponent b
with 2^(b-1) at most n below 2^b. Fuel 128 covers every n below 2^128, far
beyond the products that arise from exactly representable integer inputs
(below 2^53) of the modelled double multiplication. -/
def bitLen (n : Nat) : Nat := bitLenAux 128 n

/-- The JS expression parseInt(255/40000*invalt) in IEEE-754 double
arithmetic, for an integer invalt that is exactly representable (magnitude
below 2^53, which covers every altitude the claims range over): the exact
product dblSig * invalt * 2^(-60) is rounded to nearest, ties to even, on
the grid of its binade, whose spacing is 2^(bitLen - 113); parseInt then
truncates (the shortest round-trip decimal string of a double truncates to
the same integer as the double itself, since no integer can lie strictly
between the two). -/
def jsBlue (invalt : Nat) : Nat :=
  let N := dblSig * invalt
  let sh := bitLen N - 53
  let M := rndDivNE N (2 ^ sh)
  M * 2 ^ sh / 2 ^ 60

/-- Blue channel computation of getIconForPlane (gmap.js lines 9-15):
var invalt = maxalt - plane.altitude; if (invalt < 0) invalt = 0;
b = parseInt(255/maxalt*invalt), with the float product and parseInt
truncation modelled exactly by jsBlue. -/
def blueFor (altitude : Int) : Nat :=
  let maxalt : Int := 40000
  let invalt : Int := maxalt - altitude
  let invalt : Int := if invalt < 0 then 0 else invalt
  jsBlue invalt.toNat

/-- getIconForPlane (gmap.js lines 8-24). The selection highlight compares
Selected with plane.icao; r and g are fixed at 255. -/
def getIconForPlane (sel : Option String) (plane : PlaneView) : Icon :=
  let r : Nat := 255
  let g : Nat := 255
  let selected : Bool := sel == some plane.icao
  let b : Nat := blueFor plane.altitude
  { strokeWeight := if selected then 2 else 1
    path := "FORWARD_CLOSED_ARROW"
    scale := 5
    fillColor := "rgb(" ++ toString r ++ "," ++ toString g ++ "," ++ toString b ++ ")"
    fillOpacityTenths := 9
    rotation := plane.track }

/-- State of one Google-Maps marker as far as the source manipulates it:
setPosition, setIcon, setTitle, and setMap(null) which clears onMap. -/
structure Marker where
  position : Int × Int
  icon : Icon
  title : String
  onMap : Bool
  deriving Repr, DecidableEq

/-- A registry entry of the Planes object. The creation branch of fetchData
stores the snapshot record itself (fields icao, flight, latitude, longitude,
altitude, speed, track plus the marker); the update branch additionally
assigns lat and lon, which therefore start out undefined: they are Option
Int here. -/
structure Plane where
  icao : String
  flight : String
  latitude : Int
  longitude : Int
  altitude : Int
  speed : Int
  track : Int
  lat : Option Int
  lon : Option Int
  marker : Marker
  deriving Repr, DecidableEq

/-- One element of data.aircrafts in the polled JSON document (see the
interface description: icao, flight, latitude, longitude, altitude, speed,
track). -/
structure Aircraft where
  icao : String
  flight : String
  latitude : Int
  longitude : Int
  altitude : Int
  speed : Int
  track : Int
  deriving Repr, DecidableEq

/-- The JSON document fetched from /data.json. -/
structure SnapshotData where
  aircrafts : List Aircraft
  deriving Repr, DecidableEq

/-- The mutable globals of gmap.js plus the two text panels and the list of
markers that have been taken off the map. -/
structure AppState where
  planes : List (String × Plane)
  selected : Option String
  numPlanes : Nat
  selinfo : String
  geninfo : String
  removedMarkers : List Marker
  deriving Repr, DecidableEq

/-- Initial values of the globals: Planes = {}, Selected = null,
NumPlanes = 0, both panels empty. -/
def initialState : AppState :=
  { planes := []
    selected := none
    numPlanes := 0
    selinfo := ""
    geninfo := ""
    removedMarkers := [] }

/-- Key lookup in the Planes object: first entry whose key equals the given
icao string. -/
def lookupPlane : List (String × Plane) → String → Option Plane
  | [], _ => none
  | kp :: rest, k => if kp.1 = k then some kp.2 else lookupPlane rest k

/-- In-place mutation of the entry stored under a key, as JS does through
the object reference: every entry whose key matches is rewritten by f. -/
def mapPlaneAt (ps : List (String × Plane)) (k : String) (f : Plane → Plane) :
    List (String × Plane) :=
  ps.map (fun kp => if kp.1 = k then (kp.1, f kp.2) else kp)

/-- Keys of the registry. -/
def keysOf (ps : List (String × Plane)) : List String :=
  ps.map Prod.fst

/-- Number of registry entries stored under a key. -/
def countKey (ps : List (String × Plane)) (k : String) : Nat :=
  (keysOf ps).count k

/-- View of a registry entry with the fields getIconForPlane reads. -/
def Plane.view (p : Plane) : PlaneView :=
  { icao := p.icao, altitude := p.altitude, track := p.track }

/-- View of a snapshot record with the fields getIconForPlane reads. -/
def Aircraft.view (a : Aircraft) : PlaneView :=
  { icao := a.icao, altitude := a.altitude, track := a.track }

/-- marker.setIcon(getIconForPlane(p)) applied to a registry entry, with
the given value of Selected. -/
def setIconSel (sel : Option String) (p : Plane) : Plane :=
  { p with marker := { p.marker with icon := getIconForPlane sel p.view } }

/-- jQuery $.trim: strip whitespace from both ends of the callsign. -/
def jsTrim (s : String) : String :=
  String.mk (((s.data.dropWhile Char.isWhitespace).reverse.dropWhile
    Char.isWhitespace).reverse)

/-- Marker label of fetchData (gmap.js lines 96-99): the bare icao when the
trimmed callsign is empty, otherwise callsign followed by the icao in
parentheses. The argument is the already-trimmed plane.flight. -/
def titleFor (flight icao : String) : String :=
  if flight.length == 0 then icao else flight ++ " (" ++ icao ++ ")"

/-- JS string conversion of a possibly-undefined numeric field, as used by
refreshSelectedInfo on p.lat and p.lon. -/
def showOptInt : Option Int → String
  | none => "undefined"
  | some v => toString v

/-- The html string built by refreshSelectedInfo (gmap.js lines 49-55). -/
def selinfoHtml (p : Plane) : String :=
  let html := "ICAO: " ++ p.icao ++ "<br>"
  let html := if p.flight.length != 0 then html ++ "<b>" ++ p.flight ++ "</b><br>" else html
  let html := html ++ "Altitude: " ++ toString p.altitude ++ " feet<br>"
  let html := html ++ "Speed: " ++ toString p.speed ++ " knots<br>"
  let html := html ++ "Coordinates: " ++ showOptInt p.lat ++ ", " ++ showOptInt p.lon ++ "<br>"
  html

/-- refreshSelectedInfo (gmap.js lines 44-57): looks up Planes[Selected];
when the lookup fails nothing is written and the previous panel content
persists, otherwise the panel is replaced by selinfoHtml. -/
def refreshSelectedInfo (s : AppState) : AppState :=
  match s.selected.bind (fun k => lookupPlane s.planes k) with
  | none => s
  | some p => { s with selinfo := selinfoHtml p }

/-- refreshGeneralInfo (gmap.js lines 38-42). -/
def refreshGeneralInfo (s : AppState) : AppState :=
  { s with geninfo := toString s.numPlanes ++ " planes on screen." }

/-- marker.setTitle on the marker stored under a registry key. -/
def setMarkerTitle (st : AppState) (k : String) (t : String) : AppState :=
  { st with planes :=
      mapPlaneAt st.planes k (fun p => { p with marker := { p.marker with title := t } }) }

/-- Body of the snapshot loop of fetchData (gmap.js lines 63-100) for one
aircraft record. The update branch mutates the existing entry and its
marker, re-renders the detail panel when the entry is the selected one; the
creation branch builds a fresh marker (on the map) and inserts the snapshot
record itself into the registry, leaving lat and lon undefined. Both
branches then set the marker title. The unused var icon = marker.getIcon()
of the source is dropped. -/
def processAircraft (st : AppState) (plane : Aircraft) : AppState :=
  let flight := jsTrim plane.flight
  match lookupPlane st.planes plane.icao with
  | some myplane =>
      let marker := { myplane.marker with
        position := (plane.latitude, plane.longitude)
        icon := getIconForPlane st.selected plane.view }
      let myplane := { myplane with
        altitude := plane.altitude
        speed := plane.speed
        lat := some plane.latitude
        lon := some plane.longitude
        track := plane.track
        flight := flight
        marker := marker }
      let st := { st with planes := mapPlaneAt st.planes plane.icao (fun _ => myplane) }
      let st := if st.selected = some myplane.icao then refreshSelectedInfo st else st
      setMarkerTitle st plane.icao (titleFor flight plane.icao)
  | none =>
      let marker : Marker :=
        { position := (plane.latitude, plane.longitude)
          icon := getIconForPlane st.selected plane.view
          title := ""
          onMap := true }
      let newplane : Plane :=
        { icao := plane.icao
          flight := flight
          latitude := plane.latitude
          longitude := plane.longitude
          altitude := plane.altitude
          speed := plane.speed
          track := plane.track
          lat := none
          lon := none
          marker := marker }
      let st := { st with planes := st.planes ++ [(plane.icao, newplane)] }
      setMarkerTitle st plane.icao (titleFor flight plane.icao)

/-- The reconciliation callback of fetchData (gmap.js lines 60-110) applied
to one successfully parsed snapshot: the stillhere identity set, the per-
aircraft loop, the NumPlanes update, and the removal loop that calls
marker.setMap(null) and deletes every registry entry whose key is not in
the snapshot. -/
def fetchApply (st : AppState) (data : SnapshotData) : AppState :=
  let stillhere := data.aircrafts.map (fun plane => plane.icao)
  let st := data.aircrafts.foldl processAircraft st
  let st := { st with numPlanes := data.aircrafts.length }
  let removed := st.planes.filter (fun kp => !stillhere.contains kp.1)
  { st with
    planes := st.planes.filter (fun kp => stillhere.contains kp.1)
    removedMarkers := st.removedMarkers ++
      removed.map (fun kp => { kp.2.marker with onMap := false }) }

/-- Deselection of the previous plane inside selectPlane (gmap.js lines
30-33): if (Planes[old]) Planes[old].marker.setIcon(getIconForPlane(...)),
executed after Selected has already moved to the new identity. -/
def deselectOld (ps : List (String × Plane)) (old : Option String) (sel : Option String) :
    List (String × Plane) :=
  match old with
  | none => ps
  | some o =>
      match lookupPlane ps o with
      | none => ps
      | some _ => mapPlaneAt ps o (setIconSel sel)

/-- selectPlane (gmap.js lines 26-36), with this.planehex passed
explicitly: no-op unless the identity is in the registry; otherwise record
the old selection, set the new one, clear the highlight on the old marker
if still present, highlight the new marker, re-render the detail panel. -/
def selectPlane (s : AppState) (planehex : String) : AppState :=
  match lookupPlane s.planes planehex with
  | none => s
  | some _ =>
      let old := s.selected
      let sel := some planehex
      let ps := deselectOld s.planes old sel
      let ps := mapPlaneAt ps planehex (setIconSel sel)
      refreshSelectedInfo { s with selected := sel, planes := ps }

/-- The registry entry produced by the update branch of processAircraft for
an existing entry q and snapshot record a, including the final setTitle:
mutable fields from the snapshot, callsign trimmed, icao and the stored
latitude and longitude fields untouched, marker moved, re-colored with the
current selection and re-labelled. Used to state lemmas; it is proved equal
to what processAircraft builds. -/
def updAircraft (sel : Option String) (q : Plane) (a : Aircraft) : Plane :=
  { q with
    altitude := a.altitude
    speed := a.speed
    lat := some a.latitude
    lon := some a.longitude
    track := a.track
    flight := jsTrim a.flight
    marker := { q.marker with
      position := (a.latitude, a.longitude)
      icon := getIconForPlane sel a.view
      title := titleFor (jsTrim a.flight) a.icao } }

/-- The registry entry produced by the creation branch of processAircraft,
including the final setTitle: the snapshot record itself with trimmed
callsign, lat and lon left undefined, and a fresh on-map marker. -/
def newAircraftPlane (sel : Option String) (a : Aircraft) : Plane :=
  { icao := a.icao
    flight := jsTrim a.flight
    latitude := a.latitude
    longitude := a.longitude
    altitude := a.altitude
    speed := a.speed
    track := a.track
    lat := none
    lon := none
    marker := { position := (a.latitude, a.longitude)
                icon := getIconForPlane sel a.view
                title := titleFor (jsTrim a.flight) a.icao
                onMap := true } }

/-- Concrete registry entry used to instantiate theorems on closed inputs. -/
def planeA : Plane :=
  { icao := "A", flight := "", latitude := 10, longitude := 20, altitude := 1000,
    speed := 300, track := 90, lat := none, lon := none,
    marker := { position := (10, 20),
                icon := getIconForPlane none { icao := "A", altitude := 1000, track := 90 },
                title := "A", onMap := true } }

/-- Second concrete registry entry. -/
def planeB : Plane :=
  { icao := "B", flight := "BAW7", latitude := 30, longitude := 40, altitude := 2000,
    speed := 400, track := 180, lat := some 30, lon := some 40,
    marker := { position := (30, 40),
                icon := getIconForPlane none { icao := "B", altitude := 2000, track := 180 },
                title := "BAW7 (B)", onMap := true } }

/-- Concrete registry entry whose marker carries the highlighted icon, as
the code leaves it right after the entry has been selected. -/
def planeASel : Plane :=
  { planeA with marker := { planeA.marker with
      icon := getIconForPlane (some "A") { icao := "A", altitude := 1000, track := 90 } } }

/-- Concrete state with two registered planes and no selection. -/
def stateAB : AppState :=
  { planes := [("A", planeA), ("B", planeB)], selected := none, numPlanes := 2,
    selinfo := "", geninfo := "", removedMarkers := [] }

/-- Concrete state in which plane A is registered and selected. -/
def stateSel : AppState :=
  { planes := [("A", planeASel)], selected := some "A", numPlanes := 1,
    selinfo := "", geninfo := "", removedMarkers := [] }

/-- Concrete snapshot record that updates plane A. -/
def aircraftA : Aircraft :=
  { icao := "A", flight := "KLM42 ", latitude := 11, longitude := 21, altitude := 40000,
    speed := 450, track := 180 }

/-- Concrete snapshot record with a callsign that needs trimming. -/
def aircraftX : Aircraft :=
  { icao := "X", flight := "UAL123 ", latitude := 1, longitude := 2, altitude := 3,
    speed := 4, track := 5 }

/-- Concrete snapshot record with an empty callsign, as in the end-to-end
scenario of the specification. -/
def aircraftC5 : Aircraft :=
  { icao := "A1", flight := "", latitude := 10, longitude := 20, altitude := 0,
    speed := 100, track := 90 }

section Lemmas

/-- Looking up a key after a keyed in-place mutation: the found entry is
rewritten exactly when the mutated key is the one looked up. -/
theorem lookup_mapPlaneAt (ps : List (String × Plane)) (k : String) (f : Plane → Plane)
    (k2 : String) :
    lookupPlane (mapPlaneAt ps k f) k2 =
      (lookupPlane ps k2).map (fun p => if k2 = k then f p else p) := by
  induction ps with
  | nil => rfl
  | cons kp rest ih =>
      by_cases h1 : kp.1 = k
      · by_cases h2 : kp.1 = k2
        · have hk : k2 = k := h2 ▸ h1
          simp [mapPlaneAt, lookupPlane, h1, h2, hk]
        · simp only [mapPlaneAt, List.map_cons, if_pos h1, lookupPlane] at *
          simp [h2, ih, mapPlaneAt]
      · by_cases h2 : kp.1 = k2
        · have hk : ¬ k2 = k := fun h => h1 (h2.trans h)
          simp [mapPlaneAt, lookupPlane, h1, h2, hk]
        · simp only [mapPlaneAt, List.map_cons, if_neg h1, lookupPlane] at *
          simp [h2, ih, mapPlaneAt]

/-- Keys are unchanged by keyed in-place mutation. -/
theorem keysOf_mapPlaneAt (ps : List (String × Plane)) (k : String) (f : Plane → Plane) :
    keysOf (mapPlaneAt ps k f) = keysOf ps := by
  induction ps with
  | nil => rfl
  | cons kp rest ih =>
      by_cases h1 : kp.1 = k <;> simp [mapPlaneAt, keysOf, h1] <;>
        simpa [mapPlaneAt, keysOf] using ih

/-- A lookup that fails finds no key. -/
theorem lookup_eq_none_iff (ps : List (String × Plane)) (k : String) :
    lookupPlane ps k = none ↔ k ∉ keysOf ps := by
  induction ps with
  | nil => simp [lookupPlane, keysOf]
  | cons kp rest ih =>
      simp only [lookupPlane, keysOf, List.map_cons, List.mem_cons]
      by_cases h1 : kp.1 = k
      · simp [h1]
      · rw [if_neg h1, ih]
        constructor
        · intro hnm hor
          exact hor.elim (fun he => h1 he.symm) hnm
        · intro hn hm
          exact hn (Or.inr hm)

/-- A successful lookup exhibits its key. -/
theorem mem_keys_of_lookup (ps : List (String × Plane)) (k : String) (p : Plane)
    (h : lookupPlane ps k = some p) : k ∈ keysOf ps := by
  by_contra hk
  rw [← lookup_eq_none_iff] at hk
  rw [h] at hk
  exact Option.noConfusion hk

/-- A successful lookup exhibits its entry. -/
theorem mem_of_lookup (ps : List (String × Plane)) (k : String) (p : Plane)
    (h : lookupPlane ps k = some p) : (k, p) ∈ ps := by
  induction ps with
  | nil => exact Option.noConfusion h
  | cons kp rest ih =>
      by_cases h1 : kp.1 = k
      · simp only [lookupPlane, if_pos h1, Option.some.injEq] at h
        rw [← h1, ← h]
        exact List.mem_cons_self _ _
      · simp only [lookupPlane, if_neg h1] at h
        exact List.mem_cons_of_mem _ (ih h)

/-- Appending a single fresh entry does not disturb lookups of other keys. -/
theorem lookup_append_single_ne (ps : List (String × Plane)) (i : String) (p : Plane)
    (k : String) (h : ¬ i = k) :
    lookupPlane (ps ++ [(i, p)]) k = lookupPlane ps k := by
  induction ps with
  | nil => simp [lookupPlane, h]
  | cons kp rest ih =>
      by_cases h1 : kp.1 = k <;> simp [lookupPlane, h1, ih]

/-- Appending an entry under a key that was absent makes it the one found. -/
theorem lookup_append_single_self (ps : List (String × Plane)) (i : String) (p : Plane)
    (h : lookupPlane ps i = none) :
    lookupPlane (ps ++ [(i, p)]) i = some p := by
  induction ps with
  | nil => simp [lookupPlane]
  | cons kp rest ih =>
      by_cases h1 : kp.1 = i
      · rw [lookupPlane, if_pos h1] at h
        exact Option.noConfusion h
      · rw [lookupPlane, if_neg h1] at h
        simpa [lookupPlane, h1] using ih h

/-- Filtering on a key predicate that holds for a key keeps its lookup. -/
theorem lookup_filter_true (ps : List (String × Plane)) (cond : String → Bool)
    (k : String) (h : cond k = true) :
    lookupPlane (ps.filter (fun kp => cond kp.1)) k = lookupPlane ps k := by
  induction ps with
  | nil => rfl
  | cons kp rest ih =>
      by_cases h1 : kp.1 = k
      · rw [List.filter_cons, h1, h]
        simp [lookupPlane, h1, ih]
      · rw [List.filter_cons]
        cases hc : cond kp.1 <;> simp [lookupPlane, h1, ih]

/-- Filtering on a key predicate that fails for a key removes it. -/
theorem lookup_filter_false (ps : List (String × Plane)) (cond : String → Bool)
    (k : String) (h : cond k = false) :
    lookupPlane (ps.filter (fun kp => cond kp.1)) k = none := by
  induction ps with
  | nil => rfl
  | cons kp rest ih =>
      rw [List.filter_cons]
      by_cases h1 : kp.1 = k
      · rw [h1, h]
        simpa using ih
      · cases hc : cond kp.1 <;> simp [lookupPlane, h1, ih]

/-- An in-place mutation at an absent key changes nothing. -/
theorem mapPlaneAt_absent (ps : List (String × Plane)) (k : String) (f : Plane → Plane)
    (h : k ∉ keysOf ps) : mapPlaneAt ps k f = ps := by
  induction ps with
  | nil => rfl
  | cons kp rest ih =>
      simp only [keysOf, List.map_cons, List.mem_cons, not_or] at h
      rw [mapPlaneAt, List.map_cons, if_neg (fun he => h.1 he.symm)]
      have := ih (by simpa [keysOf] using h.2)
      rw [mapPlaneAt] at this
      rw [this]

/-- An in-place mutation that fixes the stored entry changes nothing, for a
registry without duplicate keys. -/
theorem mapPlaneAt_eq_self (ps : List (String × Plane)) (k : String) (f : Plane → Plane)
    (p : Plane) (hnd : (keysOf ps).Nodup) (hl : lookupPlane ps k = some p)
    (hf : f p = p) : mapPlaneAt ps k f = ps := by
  induction ps with
  | nil => rfl
  | cons kp rest ih =>
      simp only [keysOf, List.map_cons, List.nodup_cons] at hnd
      by_cases h1 : kp.1 = k
      · rw [lookupPlane, if_pos h1, Option.some.injEq] at hl
        rw [mapPlaneAt, List.map_cons, if_pos h1, hl, hf]
        have habs : mapPlaneAt rest k f = rest := by
          refine mapPlaneAt_absent rest k f ?_
          rw [← h1]
          exact fun hm => hnd.1 (by simpa [keysOf] using hm)
        rw [mapPlaneAt] at habs
        rw [habs, ← hl]
      · rw [lookupPlane, if_neg h1] at hl
        have := ih (by simpa [keysOf] using hnd.2) hl
        rw [mapPlaneAt] at this
        rw [mapPlaneAt, List.map_cons, if_neg h1, this]

/-- A registry without duplicate keys holds exactly one entry under any key
whose lookup succeeds. -/
theorem countKey_eq_one (ps : List (String × Plane)) (k : String) (p : Plane)
    (hnd : (keysOf ps).Nodup) (hl : lookupPlane ps k = some p) :
    countKey ps k = 1 :=
  List.count_eq_one_of_mem hnd (mem_keys_of_lookup ps k p hl)

/-- The detail-panel renderer only writes the selinfo text field. -/
theorem refresh_planes (s : AppState) : (refreshSelectedInfo s).planes = s.planes := by
  rw [refreshSelectedInfo]
  cases s.selected.bind (fun k => lookupPlane s.planes k) <;> rfl

/-- The detail-panel renderer does not move the selection. -/
theorem refresh_selected (s : AppState) : (refreshSelectedInfo s).selected = s.selected := by
  rw [refreshSelectedInfo]
  cases s.selected.bind (fun k => lookupPlane s.planes k) <;> rfl

/-- The detail-panel renderer does not touch removed markers. -/
theorem refresh_removed (s : AppState) :
    (refreshSelectedInfo s).removedMarkers = s.removedMarkers := by
  rw [refreshSelectedInfo]
  cases s.selected.bind (fun k => lookupPlane s.planes k) <;> rfl

/-- Conditional re-render inside the update branch: registry unchanged. -/
theorem ifRefresh_planes (c : Prop) [Decidable c] (s : AppState) :
    (if c then refreshSelectedInfo s else s).planes = s.planes := by
  split
  · exact refresh_planes s
  · rfl

/-- Conditional re-render inside the update branch: selection unchanged. -/
theorem ifRefresh_selected (c : Prop) [Decidable c] (s : AppState) :
    (if c then refreshSelectedInfo s else s).selected = s.selected := by
  split
  · exact refresh_selected s
  · rfl

/-- Conditional re-render inside the update branch: removed markers
unchanged. -/
theorem ifRefresh_removed (c : Prop) [Decidable c] (s : AppState) :
    (if c then refreshSelectedInfo s else s).removedMarkers = s.removedMarkers := by
  split
  · exact refresh_removed s
  · rfl

/-- The snapshot loop body does not move the selection. -/
theorem process_selected (st : AppState) (a : Aircraft) :
    (processAircraft st a).selected = st.selected := by
  unfold processAircraft
  cases hq : lookupPlane st.planes a.icao
  · rfl
  · simp only [setMarkerTitle]
    exact ifRefresh_selected _ _

/-- The snapshot loop body leaves entries under other keys untouched. -/
theorem process_lookup_ne (st : AppState) (a : Aircraft) (k : String)
    (h : ¬ a.icao = k) :
    lookupPlane (processAircraft st a).planes k = lookupPlane st.planes k := by
  unfold processAircraft
  have hk : ¬ k = a.icao := fun he => h he.symm
  cases hq : lookupPlane st.planes a.icao
  · simp only [setMarkerTitle]
    rw [lookup_mapPlaneAt, lookup_append_single_ne _ _ _ _ h]
    simp [hk]
  · simp only [setMarkerTitle]
    rw [lookup_mapPlaneAt, ifRefresh_planes, lookup_mapPlaneAt]
    simp [hk]

/-- Update branch of the snapshot loop body: the entry under the snapshot
identity becomes exactly updAircraft. -/
theorem process_lookup_update (st : AppState) (a : Aircraft) (q : Plane)
    (hq : lookupPlane st.planes a.icao = some q) :
    lookupPlane (processAircraft st a).planes a.icao =
      some (updAircraft st.selected q a) := by
  unfold processAircraft
  rw [hq]
  simp only [setMarkerTitle]
  rw [lookup_mapPlaneAt, ifRefresh_planes, lookup_mapPlaneAt, hq]
  simp [updAircraft, Aircraft.view]

/-- Creation branch of the snapshot loop body: the entry under the snapshot
identity becomes exactly newAircraftPlane. -/
theorem process_lookup_create (st : AppState) (a : Aircraft)
    (hq : lookupPlane st.planes a.icao = none) :
    lookupPlane (processAircraft st a).planes a.icao =
      some (newAircraftPlane st.selected a) := by
  unfold processAircraft
  rw [hq]
  simp only [setMarkerTitle]
  rw [lookup_mapPlaneAt, lookup_append_single_self _ _ _ hq]
  simp [newAircraftPlane, Aircraft.view]

/-- The snapshot loop body keeps registry keys free of duplicates. -/
theorem process_keysNodup (st : AppState) (a : Aircraft)
    (h : (keysOf st.planes).Nodup) :
    (keysOf (processAircraft st a).planes).Nodup := by
  unfold processAircraft
  cases hq : lookupPlane st.planes a.icao
  · simp only [setMarkerTitle]
    rw [keysOf_mapPlaneAt]
    have hni : a.icao ∉ keysOf st.planes := (lookup_eq_none_iff _ _).mp hq
    rw [keysOf, List.map_append]
    simp only [List.nodup_append, List.map_cons, List.map_nil]
    refine ⟨h, List.nodup_singleton _, ?_⟩
    intro x hx hx1
    simp only [List.mem_cons, List.not_mem_nil, or_false] at hx1
    exact hni (hx1 ▸ hx)
  · simp only [setMarkerTitle]
    rw [keysOf_mapPlaneAt, ifRefresh_planes, keysOf_mapPlaneAt]
    exact h

/-- The whole snapshot loop does not move the selection. -/
theorem foldl_selected (L : List Aircraft) (st : AppState) :
    (L.foldl processAircraft st).selected = st.selected := by
  induction L generalizing st with
  | nil => rfl
  | cons a L ih => rw [List.foldl_cons, ih, process_selected]

/-- Keys never named by the snapshot keep their entries across the whole
snapshot loop. -/
theorem foldl_lookup_untouched (L : List Aircraft) (st : AppState) (k : String)
    (h : ∀ x ∈ L, ¬ x.icao = k) :
    lookupPlane ((L.foldl processAircraft st)).planes k = lookupPlane st.planes k := by
  induction L generalizing st with
  | nil => rfl
  | cons a L ih =>
      rw [List.foldl_cons, ih _ (fun x hx => h x (List.mem_cons_of_mem _ hx)),
        process_lookup_ne st a k (h a (List.mem_cons_self _ _))]

/-- The whole snapshot loop keeps registry keys free of duplicates. -/
theorem foldl_keysNodup (L : List Aircraft) (st : AppState)
    (h : (keysOf st.planes).Nodup) :
    (keysOf ((L.foldl processAircraft st)).planes).Nodup := by
  induction L generalizing st with
  | nil => exact h
  | cons a L ih => rw [List.foldl_cons]; exact ih _ (process_keysNodup st a h)

/-- Unfolding of bitLenAux on exhausted fuel. -/
theorem bitLenAux_fuel_zero (n : Nat) : bitLenAux 0 n = 0 := rfl

/-- Unfolding of bitLenAux on remaining fuel. -/
theorem bitLenAux_fuel_succ (fuel n : Nat) :
    bitLenAux (fuel + 1) n = if n = 0 then 0 else bitLenAux fuel (n / 2) + 1 := rfl

/-- Running out of digits: bitLenAux on zero is zero for any fuel. -/
theorem bitLenAux_zero (fuel : Nat) : bitLenAux fuel 0 = 0 := by
  cases fuel
  · rfl
  · rw [bitLenAux_fuel_succ, if_pos rfl]

/-- With enough fuel, bitLenAux computes the binary digit count. -/
theorem bitLenAux_spec : ∀ (fuel n : Nat), 0 < n → n < 2 ^ fuel →
    2 ^ (bitLenAux fuel n - 1) ≤ n ∧ n < 2 ^ bitLenAux fuel n := by
  intro fuel
  induction fuel with
  | zero => intro n h1 h2; simp at h2; omega
  | succ fuel ih =>
      intro n h1 h2
      rw [bitLenAux_fuel_succ, if_neg (by omega)]
      by_cases h3 : n = 1
      · subst h3
        rw [show (1 : Nat) / 2 = 0 from rfl, bitLenAux_zero]
        decide
      · have h4 : 0 < n / 2 := by omega
        have h5 : n / 2 < 2 ^ fuel := by
          rw [pow_succ] at h2
          omega
        obtain ⟨ha, hb⟩ := ih (n / 2) h4 h5
        have hb1 : 1 ≤ bitLenAux fuel (n / 2) := by
          by_contra hc
          have hz : bitLenAux fuel (n / 2) = 0 := by omega
          rw [hz] at hb
          omega
        constructor
        · have hsp : (2 : Nat) ^ bitLenAux fuel (n / 2) =
              2 * 2 ^ (bitLenAux fuel (n / 2) - 1) := by
            conv_lhs => rw [show bitLenAux fuel (n / 2) = (bitLenAux fuel (n / 2) - 1) + 1 by omega]
            rw [pow_succ]
            ring
          rw [Nat.add_sub_cancel, hsp]
          omega
        · rw [pow_succ]
          omega

/-- The binary digit count brackets a positive number below 2^128 between
consecutive powers of two. -/
theorem bitLen_spec (n : Nat) (h : 0 < n) (hub : n < 2 ^ 128) :
    2 ^ (bitLen n - 1) ≤ n ∧ n < 2 ^ bitLen n := by
  rw [bitLen]
  exact bitLenAux_spec 128 n h hub

/-- Nearest-even rounding of a quotient is at least its floor. -/
theorem rndDivNE_ge_div (n d : Nat) : n / d ≤ rndDivNE n d := by
  simp only [rndDivNE]
  split_ifs <;> omega

/-- The floor quotient times the divisor falls short of n by less than the
divisor. -/
theorem div_mul_add_le (N d : Nat) (hd : 0 < d) : N ≤ N / d * d + d := by
  have h1 := Nat.div_add_mod N d
  have h2 : N % d < d := Nat.mod_lt _ hd
  rw [Nat.mul_comm] at h1
  omega

/-- Above the threshold invalt 40157 (altitude at most -157) the rounded
double product reaches 256 before truncation: the exact product exceeds
256.0008, and nearest rounding on the 53-bit grid of its binade loses less
than one part in 2^52. -/
theorem jsBlue_ge_256 (invalt : Nat) (h : 40157 ≤ invalt) (hub : invalt ≤ 2 ^ 53) :
    256 ≤ jsBlue invalt := by
  have hds : dblSig = 7349874591868649 := by decide
  simp only [jsBlue]
  rw [hds]
  set N := 7349874591868649 * invalt with hN
  have hNlb : 295148913985669337893 ≤ N := by
    rw [hN]
    calc (295148913985669337893 : Nat) = 7349874591868649 * 40157 := by norm_num
    _ ≤ 7349874591868649 * invalt := Nat.mul_le_mul_left _ h
  have hNub : N < 2 ^ 128 := by
    rw [hN]
    calc 7349874591868649 * invalt ≤ 7349874591868649 * 2 ^ 53 :=
          Nat.mul_le_mul_left _ hub
    _ < 2 ^ 128 := by norm_num
  have hpos : 0 < N := by omega
  obtain ⟨hlo, hhi⟩ := bitLen_spec N hpos hNub
  have h53lit : (2 : Nat) ^ 53 = 9007199254740992 := by norm_num
  have hbl54 : 54 ≤ bitLen N := by
    by_contra hc
    have hle : N < 2 ^ 53 :=
      lt_of_lt_of_le hhi (Nat.pow_le_pow_right (by omega) (by omega))
    omega
  set sh := bitLen N - 53 with hsh
  have hgrid : 2 ^ sh * 2 ^ 52 ≤ N := by
    have hadd : (2 : Nat) ^ sh * 2 ^ 52 = 2 ^ (bitLen N - 1) := by
      rw [← pow_add]
      congr 1
      omega
    rw [hadd]
    exact hlo
  have h52pos : (0 : Nat) < 2 ^ 52 := by positivity
  have hshN : 2 ^ sh ≤ N / 2 ^ 52 := (Nat.le_div_iff_mul_le h52pos).mpr hgrid
  have hshpos : (0 : Nat) < 2 ^ sh := by positivity
  have hMge : N / 2 ^ sh ≤ rndDivNE N (2 ^ sh) := rndDivNE_ge_div N (2 ^ sh)
  have hmul := div_mul_add_le N (2 ^ sh) hshpos
  have hMN : N - N / 2 ^ 52 ≤ rndDivNE N (2 ^ sh) * 2 ^ sh := by
    have h1 : N / 2 ^ sh * 2 ^ sh ≤ rndDivNE N (2 ^ sh) * 2 ^ sh :=
      Nat.mul_le_mul_right _ hMge
    omega
  have h52lit : (2 : Nat) ^ 52 = 4503599627370496 := by norm_num
  rw [h52lit] at hMN
  have hfin : 295147905179352825856 ≤ rndDivNE N (2 ^ sh) * 2 ^ sh := by omega
  have h60pos : (0 : Nat) < 2 ^ 60 := by positivity
  refine (Nat.le_div_iff_mul_le h60pos).mpr ?_
  have h60lit : (2 : Nat) ^ 60 = 1152921504606846976 := by norm_num
  rw [h60lit]
  omega

/-- Between the first negative altitude and -156 the rounded double product
stays strictly below 256: a finite check of the 156 values of invalt. -/
theorem jsBlue_mid (i : Nat) (h : i < 156) : jsBlue (40001 + i) = 255 := by
  revert i
  decide

/-- Stroke weight of the computed icon: 2 exactly when the plane is the
selected one. -/
theorem getIcon_strokeWeight (sel : Option String) (v : PlaneView) :
    (getIconForPlane sel v).strokeWeight = if sel = some v.icao then 2 else 1 := by
  simp [getIconForPlane]

/-- Rotation of the computed icon is the track of the plane. -/
theorem getIcon_rotation (sel : Option String) (v : PlaneView) :
    (getIconForPlane sel v).rotation = v.track := rfl

/-- Re-coloring a marker changes no other field of the registry entry. -/
theorem setIconSel_fields (sel : Option String) (p : Plane) :
    (setIconSel sel p).icao = p.icao ∧ (setIconSel sel p).altitude = p.altitude ∧
      (setIconSel sel p).track = p.track := ⟨rfl, rfl, rfl⟩

/-- Stroke weight after re-coloring a marker. -/
theorem setIconSel_strokeWeight (sel : Option String) (p : Plane) :
    (setIconSel sel p).marker.icon.strokeWeight = if sel = some p.icao then 2 else 1 :=
  getIcon_strokeWeight sel p.view

/-- Lookup through the deselection step of selectPlane: the entry is
re-colored exactly when it was the previously selected one. -/
theorem deselectOld_lookup (ps : List (String × Plane)) (old : Option String)
    (sel : Option String) (k : String) :
    lookupPlane (deselectOld ps old sel) k =
      (lookupPlane ps k).map (fun q => if old = some k then setIconSel sel q else q) := by
  cases old with
  | none => simp [deselectOld]
  | some o =>
      rw [deselectOld]
      cases hlo : lookupPlane ps o with
      | none =>
          by_cases ho : o = k
          · rw [ho] at hlo
            simp [hlo]
          · cases hk : lookupPlane ps k <;>
              simp [fun he : some o = some k => ho (Option.some.injEq o k ▸ he), ho]
      | some q0 =>
          rw [lookup_mapPlaneAt]
          by_cases ho : k = o
          · simp [ho]
          · have : ¬ (some o = some k) := fun he => ho (Option.some.inj he).symm
            simp [ho, this]

/-- The selection after a successful selectPlane is the clicked identity. -/
theorem selectPlane_selected (s : AppState) (hex : String) (p0 : Plane)
    (hhex : lookupPlane s.planes hex = some p0) :
    (selectPlane s hex).selected = some hex := by
  unfold selectPlane
  rw [hhex]
  exact refresh_selected _

/-- Lookup in the registry after a successful selectPlane: the previously
selected entry is repainted with the new selection, and the clicked entry
is repainted (possibly twice when it was already selected). -/
theorem selectPlane_lookup (s : AppState) (hex : String) (p0 : Plane)
    (hhex : lookupPlane s.planes hex = some p0) (k : String) :
    lookupPlane (selectPlane s hex).planes k =
      (lookupPlane s.planes k).map (fun q =>
        let q1 := if s.selected = some k then setIconSel (some hex) q else q
        if k = hex then setIconSel (some hex) q1 else q1) := by
  unfold selectPlane
  rw [hhex]
  simp only [refresh_planes]
  rw [lookup_mapPlaneAt, deselectOld_lookup]
  cases hk : lookupPlane s.planes k <;> simp

/-- Snapshot identities survive the removal loop of fetchApply, with the
entry produced by the snapshot loop. -/
theorem fetch_lookup_of_mem (st : AppState) (d : SnapshotData) (a : Aircraft)
    (hmem : a ∈ d.aircrafts) (p2 : Plane)
    (hfold : lookupPlane ((d.aircrafts.foldl processAircraft st)).planes a.icao = some p2) :
    lookupPlane (fetchApply st d).planes a.icao = some p2 := by
  have hcont : (d.aircrafts.map (fun plane => plane.icao)).contains a.icao = true :=
    List.elem_eq_true_of_mem (List.mem_map_of_mem _ hmem)
  unfold fetchApply
  rw [lookup_filter_true _ _ _ hcont]
  exact hfold

/-- Keys of the state after fetchApply stay duplicate free. -/
theorem fetch_keysNodup (st : AppState) (d : SnapshotData)
    (hnd : (keysOf st.planes).Nodup) :
    (keysOf (fetchApply st d).planes).Nodup := by
  have hnd2 := foldl_keysNodup d.aircrafts st hnd
  unfold fetchApply
  exact List.Nodup.sublist ((List.filter_sublist _).map Prod.fst) hnd2

end Lemmas

section Claims

/-- C1: for every entity whose identity is present in the registry and in
the reconciled snapshot, the registry afterwards contains exactly one entry
for that identity, and its mutable fields (position as lat, lon and marker
position, altitude, speed, track with the marker rotation, trimmed
callsign) equal the values of the latest snapshot record. -/
theorem fetch_updates_existing (st : AppState) (d : SnapshotData) (a : Aircraft)
    (q : Plane) (hnd : (keysOf st.planes).Nodup) (hmem : a ∈ d.aircrafts)
    (hsnap : (d.aircrafts.map (fun x => x.icao)).Nodup)
    (hq : lookupPlane st.planes a.icao = some q) :
    ∃ p2, lookupPlane (fetchApply st d).planes a.icao = some p2 ∧
      countKey (fetchApply st d).planes a.icao = 1 ∧
      p2.lat = some a.latitude ∧ p2.lon = some a.longitude ∧
      p2.marker.position = (a.latitude, a.longitude) ∧
      p2.altitude = a.altitude ∧ p2.speed = a.speed ∧
      p2.track = a.track ∧ p2.marker.icon.rotation = a.track ∧
      p2.flight = jsTrim a.flight := by
  obtain ⟨pre, post, hsplit⟩ := List.append_of_mem hmem
  have hsn := hsnap
  rw [hsplit] at hsn
  simp only [List.map_append, List.map_cons, List.nodup_append, List.nodup_cons] at hsn
  obtain ⟨h1, ⟨h2, h3⟩, h4⟩ := hsn
  have hpre : ∀ x ∈ pre, ¬ x.icao = a.icao := fun x hx he =>
    h4 (List.mem_map_of_mem _ hx) (he ▸ List.mem_cons_self _ _)
  have hpost : ∀ x ∈ post, ¬ x.icao = a.icao := fun x hx he =>
    h2 (he ▸ List.mem_map_of_mem _ hx)
  have hfold : lookupPlane ((d.aircrafts.foldl processAircraft st)).planes a.icao =
      some (updAircraft st.selected q a) := by
    rw [hsplit, List.foldl_append, List.foldl_cons]
    have hst1 := foldl_lookup_untouched pre st a.icao hpre
    rw [hq] at hst1
    have hstep := process_lookup_update (pre.foldl processAircraft st) a q hst1
    rw [foldl_selected] at hstep
    have hrest := foldl_lookup_untouched post
      (processAircraft (pre.foldl processAircraft st) a) a.icao hpost
    rw [hstep] at hrest
    exact hrest
  have hlook := fetch_lookup_of_mem st d a hmem _ hfold
  refine ⟨updAircraft st.selected q a, hlook, ?_, rfl, rfl, rfl, rfl, rfl, rfl, rfl, rfl⟩
  exact countKey_eq_one _ _ _ (fetch_keysNodup st d hnd) hlook

/-- C2: every registry identity absent from the identity set of the
reconciled snapshot is gone from the registry afterwards, and its marker
has been taken off the map (setMap null) and recorded among the removed
markers. -/
theorem fetch_removes_vanished (st : AppState) (d : SnapshotData) (k : String)
    (q : Plane) (hq : lookupPlane st.planes k = some q)
    (habsent : ∀ x ∈ d.aircrafts, ¬ x.icao = k) :
    lookupPlane (fetchApply st d).planes k = none ∧
      { q.marker with onMap := false } ∈ (fetchApply st d).removedMarkers := by
  have hfold : lookupPlane ((d.aircrafts.foldl processAircraft st)).planes k = some q := by
    rw [foldl_lookup_untouched d.aircrafts st k habsent]
    exact hq
  have hnm : k ∉ d.aircrafts.map (fun plane => plane.icao) := by
    intro hm
    obtain ⟨x, hx, hxe⟩ := List.mem_map.mp hm
    exact habsent x hx hxe
  have hcont : (d.aircrafts.map (fun plane => plane.icao)).contains k = false := by
    simpa using hnm
  constructor
  · unfold fetchApply
    exact lookup_filter_false _ _ _ hcont
  · unfold fetchApply
    refine List.mem_append_right _ ?_
    refine List.mem_map.mpr ⟨(k, q), ?_, rfl⟩
    refine List.mem_filter.mpr ⟨mem_of_lookup _ _ _ hfold, ?_⟩
    rw [hcont]
    rfl

/-- C7: after reconciling a snapshot, the marker label of each snapshot
entity is the bare identity when the trimmed callsign is empty, and
otherwise the trimmed callsign followed by the identity in parentheses. -/
theorem fetch_marker_title (st : AppState) (d : SnapshotData) (a : Aircraft)
    (hmem : a ∈ d.aircrafts)
    (hsnap : (d.aircrafts.map (fun x => x.icao)).Nodup) :
    ∃ p2, lookupPlane (fetchApply st d).planes a.icao = some p2 ∧
      p2.marker.title =
        if jsTrim a.flight = "" then a.icao
        else jsTrim a.flight ++ " (" ++ a.icao ++ ")" := by
  obtain ⟨pre, post, hsplit⟩ := List.append_of_mem hmem
  have hsn := hsnap
  rw [hsplit] at hsn
  simp only [List.map_append, List.map_cons, List.nodup_append, List.nodup_cons] at hsn
  obtain ⟨h1, ⟨h2, h3⟩, h4⟩ := hsn
  have hpre : ∀ x ∈ pre, ¬ x.icao = a.icao := fun x hx he =>
    h4 (List.mem_map_of_mem _ hx) (he ▸ List.mem_cons_self _ _)
  have hpost : ∀ x ∈ post, ¬ x.icao = a.icao := fun x hx he =>
    h2 (he ▸ List.mem_map_of_mem _ hx)
  have htq : titleFor (jsTrim a.flight) a.icao =
      if jsTrim a.flight = "" then a.icao
      else jsTrim a.flight ++ " (" ++ a.icao ++ ")" := by
    rw [titleFor]
    by_cases he : jsTrim a.flight = ""
    · simp [he]
    · have : ¬ (jsTrim a.flight).length = 0 := by
        intro hl
        exact he (String.ext (List.length_eq_zero.mp hl))
      simp [this, he]
  cases hst1 : lookupPlane ((pre.foldl processAircraft st)).planes a.icao with
  | some q =>
      have hstep := process_lookup_update (pre.foldl processAircraft st) a q hst1
      have hrest := foldl_lookup_untouched post
        (processAircraft (pre.foldl processAircraft st) a) a.icao hpost
      rw [hstep] at hrest
      refine ⟨updAircraft ((pre.foldl processAircraft st)).selected q a,
        fetch_lookup_of_mem st d a hmem _ ?_, htq⟩
      rw [hsplit, List.foldl_append, List.foldl_cons]
      exact hrest
  | none =>
      have hstep := process_lookup_create (pre.foldl processAircraft st) a hst1
      have hrest := foldl_lookup_untouched post
        (processAircraft (pre.foldl processAircraft st) a) a.icao hpost
      rw [hstep] at hrest
      refine ⟨newAircraftPlane ((pre.foldl processAircraft st)).selected a,
        fetch_lookup_of_mem st d a hmem _ ?_, htq⟩
      rw [hsplit, List.foldl_append, List.foldl_cons]
      exact hrest

/-- C3 evaluated at its failing input: in the IEEE-754 double arithmetic of
the source, the blue channel at altitude 0 is
parseInt(255/40000*40000) = parseInt(254.99999999999997) = 254, so the fill
color is rgb(255,255,254) and not the rgb(255,255,255) required by the
claim that altitude 0 gives blue 255; the other anchor points of the claim
hold (127 at altitude 20000, 0 at and above the 40000 ceiling). -/
theorem getIcon_blue_254_at_zero :
    blueFor 0 = 254 ∧
      (getIconForPlane none { icao := "A", altitude := 0, track := 90 }).fillColor =
        "rgb(255,255,254)" ∧
      blueFor 20000 = 127 ∧ blueFor 40000 = 0 ∧ blueFor 45000 = 0 := by
  refine ⟨by decide, by decide, by decide, by decide, by decide⟩

/-- C9 counterexample: at the negative altitude -1 the computed blue
channel is 255, which does not exceed 255, and the resulting fill color
rgb(255,255,255) is inside the 0-255 range; the claim that every negative
altitude yields a blue channel above 255 is therefore false. -/
theorem blueFor_neg_one_in_range :
    (-1 : Int) < 0 ∧ blueFor (-1) = 255 ∧ ¬ 255 < blueFor (-1) ∧
      (getIconForPlane none { icao := "X", altitude := -1, track := 0 }).fillColor =
        "rgb(255,255,255)" := by
  refine ⟨by decide, by decide, by decide, ?_⟩
  rfl

/-- C9 amended: for negative altitudes the clamp is not applied and the
blue channel is the double product parseInt(255/40000*invalt) with no upper
bound; it is at least 255, and it exceeds 255 (leaving the 0-255 rgb range)
exactly when the altitude is at most -157, while altitudes -156 up to -1
still give exactly 255. Stated for altitudes of magnitude at most 2^52,
where the double subtraction 40000 - altitude is exact. -/
theorem blueFor_no_upper_clamp (alt : Int) (h : alt < 0) (hmag : -(2 ^ 52) ≤ alt) :
    blueFor alt = jsBlue ((40000 : Int) - alt).toNat ∧
      255 ≤ blueFor alt ∧ (255 < blueFor alt ↔ alt ≤ -157) := by
  have hcl : blueFor alt = jsBlue ((40000 : Int) - alt).toNat := by
    simp only [blueFor]
    rw [if_neg (by omega)]
  have h52 : ((2 : Int) ^ 52) = 4503599627370496 := by norm_num
  rw [h52] at hmag
  have hub : ((40000 : Int) - alt).toNat ≤ 2 ^ 53 := by
    have h53 : ((2 : Nat) ^ 53) = 9007199254740992 := by norm_num
    rw [h53]
    omega
  refine ⟨hcl, ?_, ?_⟩ <;> rw [hcl] <;> rcases le_or_lt alt (-157) with hth | hth
  · have h256 := jsBlue_ge_256 ((40000 : Int) - alt).toNat (by omega) hub
    omega
  · have h255 : jsBlue ((40000 : Int) - alt).toNat = 255 := by
      have hb := jsBlue_mid (((40000 : Int) - alt).toNat - 40001) (by omega)
      have he : 40001 + (((40000 : Int) - alt).toNat - 40001) =
          ((40000 : Int) - alt).toNat := by omega
      rw [he] at hb
      exact hb
    omega
  · have h256 := jsBlue_ge_256 ((40000 : Int) - alt).toNat (by omega) hub
    constructor
    · intro _
      exact hth
    · intro _
      omega
  · have h255 : jsBlue ((40000 : Int) - alt).toNat = 255 := by
      have hb := jsBlue_mid (((40000 : Int) - alt).toNat - 40001) (by omega)
      have he : 40001 + (((40000 : Int) - alt).toNat - 40001) =
          ((40000 : Int) - alt).toNat := by omega
      rw [he] at hb
      exact hb
    constructor
    · intro hgt
      rw [h255] at hgt
      omega
    · intro hgt
      omega

/-- C8: clicking a marker whose identity is not in the registry is a
no-op: the whole application state, hence the selection, the registry and
every marker icon, is unchanged. -/
theorem selectPlane_unknown_noop (s : AppState) (hex : String)
    (h : lookupPlane s.planes hex = none) : selectPlane s hex = s := by
  unfold selectPlane
  rw [h]

/-- C6 counterexample: reconciling an empty snapshot from a state in which
the registered plane A is selected removes A from the registry but leaves
the selection pointing at A, so the stated invariant (a set selection
always references a key present in the registry, preserved by every
operation including removal) fails on the code. -/
theorem fetch_dangling_selection :
    (fetchApply stateSel { aircrafts := [] }).selected = some "A" ∧
      lookupPlane (fetchApply stateSel { aircrafts := [] }).planes "A" = none := by
  decide

/-- C6 amended: the selection always holds at most one identity (it is a
single nullable reference); the click handler either leaves the state
unchanged or points the selection at a key present in the registry; but
reconciliation never changes the selection at all, so removing the
selected entity leaves a dangling selection. -/
theorem selection_amended :
    (∀ (s : AppState) (hex : String), selectPlane s hex = s ∨
      ((selectPlane s hex).selected = some hex ∧
        (lookupPlane (selectPlane s hex).planes hex).isSome = true)) ∧
    (∀ (s : AppState) (d : SnapshotData), (fetchApply s d).selected = s.selected) := by
  constructor
  · intro s hex
    cases hl : lookupPlane s.planes hex with
    | none =>
        refine Or.inl ?_
        unfold selectPlane
        rw [hl]
    | some p =>
        refine Or.inr ⟨selectPlane_selected s hex p hl, ?_⟩
        rw [selectPlane_lookup s hex p hl hex, hl]
        rfl
  · intro s d
    simp only [fetchApply]
    exact foldl_selected _ _

/-- C4: selecting plane A and then plane B, both registered under their own
identities, leaves B as the (unique) selection, repaints the marker of A
with stroke weight 1 and the marker of B with stroke weight 2. -/
theorem selectPlane_switch (s : AppState) (A B : String) (pa pb : Plane)
    (hA : lookupPlane s.planes A = some pa) (hB : lookupPlane s.planes B = some pb)
    (haid : pa.icao = A) (hbid : pb.icao = B) (hne : ¬ A = B) :
    (selectPlane s A).selected = some A ∧
    (selectPlane (selectPlane s A) B).selected = some B ∧
    (∃ pa2, lookupPlane (selectPlane (selectPlane s A) B).planes A = some pa2 ∧
      pa2.marker.icon.strokeWeight = 1) ∧
    (∃ pb2, lookupPlane (selectPlane (selectPlane s A) B).planes B = some pb2 ∧
      pb2.marker.icon.strokeWeight = 2) := by
  have hneB : ¬ B = A := fun he => hne he.symm
  have hs1sel := selectPlane_selected s A pa hA
  have hs1A := selectPlane_lookup s A pa hA A
  rw [hA] at hs1A
  simp only [Option.map_some, if_pos rfl] at hs1A
  have hs1B := selectPlane_lookup s A pa hA B
  rw [hB] at hs1B
  simp only [Option.map_some, if_neg hneB] at hs1B
  have hpa1 : (setIconSel (some A)
      (if s.selected = some A then setIconSel (some A) pa else pa)).icao = A := by
    split <;> simp [setIconSel, haid]
  have hpb1 : ((if s.selected = some B then setIconSel (some A) pb else pb)).icao = B := by
    split <;> simp [setIconSel, hbid]
  have hs2sel := selectPlane_selected (selectPlane s A) B _ hs1B
  have hs2A := selectPlane_lookup (selectPlane s A) B _ hs1B A
  rw [hs1A, hs1sel] at hs2A
  simp only [Option.map_some, if_pos rfl, if_neg hne] at hs2A
  have hs2B := selectPlane_lookup (selectPlane s A) B _ hs1B B
  rw [hs1B, hs1sel] at hs2B
  have hsne : ¬ (some A = some B) := fun he => hne (Option.some.inj he)
  simp only [Option.map_some, if_neg hsne, if_pos rfl] at hs2B
  refine ⟨hs1sel, hs2sel, ⟨_, hs2A, ?_⟩, ⟨_, hs2B, ?_⟩⟩
  · simp only [if_true]
    rw [setIconSel_strokeWeight, hpa1,
      if_neg (fun he : some B = some A => hneB (Option.some.inj he))]
  · simp only [if_true]
    rw [setIconSel_strokeWeight, hpb1, if_pos rfl]

/-- C10: re-selecting the already selected plane is idempotent: the
selection is unchanged and the registry, hence every marker icon, is
unchanged. The hypothesis on the stored icon expresses the state the code
itself leaves after a plane has been selected: its marker carries the
highlighted icon computed for it. -/
theorem selectPlane_reselect_noop (s : AppState) (A : String) (pa : Plane)
    (hnd : (keysOf s.planes).Nodup) (hsel : s.selected = some A)
    (hA : lookupPlane s.planes A = some pa)
    (hicon : pa.marker.icon = getIconForPlane (some A) pa.view) :
    (selectPlane s A).selected = s.selected ∧ (selectPlane s A).planes = s.planes := by
  have hfix : setIconSel (some A) pa = pa := by
    rw [setIconSel, ← hicon]
  have hdes : deselectOld s.planes s.selected (some A) = s.planes := by
    rw [hsel, deselectOld, hA]
    exact mapPlaneAt_eq_self _ _ _ pa hnd hA hfix
  have hmap : mapPlaneAt s.planes A (setIconSel (some A)) = s.planes :=
    mapPlaneAt_eq_self _ _ _ pa hnd hA hfix
  have hsp : selectPlane s A = refreshSelectedInfo { s with selected := some A, planes := mapPlaneAt (deselectOld s.planes s.selected (some A)) A (setIconSel (some A)) } := by
    unfold selectPlane
    rw [hA]
  rw [hdes, hmap] at hsp
  rw [hsp]
  constructor
  · rw [refresh_selected]
    exact hsel.symm
  · rw [refresh_planes]

/-- C5 evaluated at the failing input: reconcile one snapshot that creates
plane A1 and click its marker. The detail panel renders the identity,
altitude and speed, but the coordinates line reads undefined, because the
creation branch stores the position under latitude and longitude while the
renderer reads the lat and lon fields, which only the update branch ever
assigns. -/
theorem selinfo_undefined_coordinates :
    (selectPlane (fetchApply initialState { aircrafts := [aircraftC5] }) "A1").selinfo =
      "ICAO: A1<br>Altitude: 0 feet<br>Speed: 100 knots<br>Coordinates: undefined, undefined<br>" := by
  decide

end Claims

section Witnesses

/-- Closed instance of the C1 theorem: plane A registered, then updated by
a snapshot that moves it to (11, 21), altitude 40000, trimmed callsign
KLM42. -/
theorem fetch_updates_existing_witness :
    (keysOf stateAB.planes).Nodup ∧
    lookupPlane stateAB.planes aircraftA.icao = some planeA ∧
    (∃ p2, lookupPlane (fetchApply stateAB { aircrafts := [aircraftA] }).planes aircraftA.icao = some p2 ∧
      countKey (fetchApply stateAB { aircrafts := [aircraftA] }).planes aircraftA.icao = 1 ∧
      p2.lat = some aircraftA.latitude ∧ p2.lon = some aircraftA.longitude ∧
      p2.marker.position = (aircraftA.latitude, aircraftA.longitude) ∧
      p2.altitude = aircraftA.altitude ∧ p2.speed = aircraftA.speed ∧
      p2.track = aircraftA.track ∧ p2.marker.icon.rotation = aircraftA.track ∧
      p2.flight = jsTrim aircraftA.flight) :=
  ⟨by decide, by decide,
    fetch_updates_existing stateAB { aircrafts := [aircraftA] } aircraftA planeA
      (by decide) (by decide) (by decide) (by decide)⟩

/-- Closed instance of the C2 theorem: plane A registered, then gone from
an empty snapshot. -/
theorem fetch_removes_vanished_witness :
    lookupPlane stateAB.planes "A" = some planeA ∧
    (lookupPlane (fetchApply stateAB { aircrafts := [] }).planes "A" = none ∧
      { planeA.marker with onMap := false } ∈
        (fetchApply stateAB { aircrafts := [] }).removedMarkers) :=
  ⟨by decide,
    fetch_removes_vanished stateAB { aircrafts := [] } "A" planeA (by decide) (by decide)⟩

/-- Closed instance of the C4 theorem on the two-plane state. -/
theorem selectPlane_switch_witness :
    lookupPlane stateAB.planes "A" = some planeA ∧
    lookupPlane stateAB.planes "B" = some planeB ∧
    ((selectPlane stateAB "A").selected = some "A" ∧
     (selectPlane (selectPlane stateAB "A") "B").selected = some "B" ∧
     (∃ pa2, lookupPlane (selectPlane (selectPlane stateAB "A") "B").planes "A" = some pa2 ∧
       pa2.marker.icon.strokeWeight = 1) ∧
     (∃ pb2, lookupPlane (selectPlane (selectPlane stateAB "A") "B").planes "B" = some pb2 ∧
       pb2.marker.icon.strokeWeight = 2)) :=
  ⟨by decide, by decide,
    selectPlane_switch stateAB "A" "B" planeA planeB
      (by decide) (by decide) (by decide) (by decide) (by decide)⟩

/-- Closed instance of the C7 theorem: callsign with a trailing blank is
trimmed into the label. -/
theorem fetch_marker_title_witness :
    aircraftX ∈ ({ aircrafts := [aircraftX] } : SnapshotData).aircrafts ∧
    (∃ p2, lookupPlane (fetchApply initialState { aircrafts := [aircraftX] }).planes "X" = some p2 ∧
      p2.marker.title = "UAL123 (X)") := by
  refine ⟨by decide, ?_⟩
  obtain ⟨p2, h1, h2⟩ := fetch_marker_title initialState { aircrafts := [aircraftX] }
    aircraftX (by decide) (by decide)
  exact ⟨p2, h1, h2.trans (by decide)⟩

/-- Closed instance of the C8 theorem: clicking an unregistered identity. -/
theorem selectPlane_unknown_noop_witness :
    lookupPlane initialState.planes "ZZ" = none ∧
      selectPlane initialState "ZZ" = initialState :=
  ⟨rfl, selectPlane_unknown_noop initialState "ZZ" rfl⟩

/-- Closed instance of the amended C9 theorem at altitude -157, the first
altitude whose blue channel leaves the rgb range. -/
theorem blueFor_no_upper_clamp_witness :
    (-157 : Int) < 0 ∧ -(2 ^ 52) ≤ (-157 : Int) ∧
      (blueFor (-157) = jsBlue ((40000 : Int) - (-157)).toNat ∧
        255 ≤ blueFor (-157) ∧ (255 < blueFor (-157) ↔ (-157 : Int) ≤ -157)) :=
  ⟨by decide, by decide, blueFor_no_upper_clamp (-157) (by decide) (by decide)⟩

/-- Closed instance of the C10 theorem: re-selecting the selected plane A
whose marker already carries the highlighted icon. -/
theorem selectPlane_reselect_noop_witness :
    stateSel.selected = some "A" ∧ lookupPlane stateSel.planes "A" = some planeASel ∧
    ((selectPlane stateSel "A").selected = stateSel.selected ∧
      (selectPlane stateSel "A").planes = stateSel.planes) :=
  ⟨rfl, by decide,
    selectPlane_reselect_noop stateSel "A" planeASel (by decide) rfl (by decide) (by decide)⟩

end Witnesses

end SBS1
